import Mathlib

/-!
Verification of the gdstk library I/O layer (src/src/library.cpp): the GDSII
reader, the OASIS reader, and the OASIS writer.  The development is a shallow
embedding: C++ functions become Lean functions over explicit state, machine
integers become Nat/Int, doubles that only ever hold exactly representable
layout quantities (unit factors, magnifications, angles that are rational
multiples of pi) become rationals, and file I/O becomes explicit byte lists
or record lists.  Definitions are transcribed from library.cpp; helpers from
other translation units of the repository that are not available (oasis.cpp,
utils.cpp, repetition.cpp) are modelled from the specification and marked as
such in their doc comments.
-/

set_option maxHeartbeats 1000000
set_option linter.unusedTactic false

namespace Gdstk

/-- Two-dimensional point with exact rational coordinates (gdstk Vec2 holds
doubles; the quantities the claims are about are exactly representable). -/
abbrev Vec2 := ℚ × ℚ

/-- Modelled from the spec: the OASIS unsigned-integer encoding implemented by
oasis_write_unsigned_integer in oasis.cpp (not under src/): a 7-bit
little-endian varint with the continuation bit in the MSB of each byte. -/
def oasisUnsignedBytes (n : Nat) : List Nat :=
  if n < 128 then [n] else (n % 128 + 128) :: oasisUnsignedBytes (n / 128)
decreasing_by exact Nat.div_lt_self (by omega) (by norm_num)

/-- Modelled from the spec: rounding used by the writer for coordinates
(C llround: round half away from zero). -/
def llround (q : ℚ) : ℤ :=
  if q < 0 then -⌊-q + 1/2⌋ else ⌊q + 1/2⌋

/-- Modelled from the spec: the Repetition variant from repetition.h (not
under src/): one of None, Rectangular(cols, rows, spacing), Regular(cols,
rows, v1, v2), Explicit(offsets). -/
inductive Repetition where
  | none : Repetition
  | rectangular (columns rows : Nat) (spacing : Vec2) : Repetition
  | regular (columns rows : Nat) (v1 v2 : Vec2) : Repetition
  | explicitRep (offsets : List Vec2) : Repetition
deriving DecidableEq

/-- Modelled from the spec: Repetition::get_size from repetition.cpp (not
under src/), the total number of occurrences; a repetition of type None has
no additional occurrences.  The writer only uses it through the test
get_size() > 1. -/
def Repetition.get_size : Repetition → Nat
  | .none => 0
  | .rectangular c r _ => c * r
  | .regular c r _ _ => c * r
  | .explicitRep offs => offs.length + 1

/-- ReferenceType from reference.h (not under src/); Cell is the first
enumerator, so zero-initialized references have type Cell. -/
inductive ReferenceType where
  | Cell : ReferenceType
  | RawCell : ReferenceType
  | Name : ReferenceType
deriving DecidableEq

/-- A gdstk Reference.  The cell pointer is modelled as an index into the
owning library's cell array (the OASIS reader also stashes a raw reference
number in this field before END resolution, exactly as the C code stores it
in the pointer).  The rotation field is kept exactly, in units of pi: a
reference holding rotation r stands for an angle of r*pi radians. -/
structure Reference where
  type : ReferenceType
  name : Option String
  cell : Option Nat
  origin : Vec2
  magnification : ℚ
  rotation : ℚ
  x_reflection : Bool
  repetition : Repetition
  properties : List (ℤ × String)
deriving DecidableEq

/-- A gdstk Label.  The refnum field models the temporary storage of a text
string reference number in the owner pointer by the OASIS reader. -/
structure Label where
  text : Option String
  refnum : Option Nat
  layer : ℤ
  texttype : ℤ
  origin : Vec2
  anchor : Nat
  rotation : ℚ
  magnification : ℚ
  x_reflection : Bool
  repetition : Repetition
  properties : List (ℤ × String)
deriving DecidableEq

/-- Modelled from the spec: is_multiple_of_pi_over_2 from utils.cpp (not
under src/).  With rotations represented exactly as rational multiples of
pi, an angle r*pi is an integer multiple of pi/2 exactly when 2*r is an
integer, and then m = 2*r satisfies angle = m*(pi/2). -/
def is_multiple_of_pi_over_2 (r : ℚ) : Option ℤ :=
  if (2 * r).den = 1 then some (2 * r).num else none

/-- The info-byte quadrant computation of Library::write_oas (library.cpp
lines 281-285), with the C truncating % operator rendered as Int.tmod:
for m < 0 the code uses (0x03 & ((m % 4) + 4)), otherwise (0x03 & (m % 4)). -/
def placementQuadrant (m : ℤ) : Nat :=
  if m < 0 then ((m.tmod 4 + 4).toNat) &&& 0x03 else ((m.tmod 4).toNat) &&& 0x03

/-- A PLACEMENT or PLACEMENT_TRANSFORM record as emitted by
Library::write_oas for one Reference (library.cpp lines 268-310), or the
skip outcome for a RawCell reference. -/
inductive OasPlacementRecord where
  | placement (info : Nat) (index : Nat) (x y : ℤ) (rep : Option Repetition) :
      OasPlacementRecord
  | placementTransform (info : Nat) (index : Nat) (mag : Option ℚ)
      (rotationDeg : Option ℚ) (x y : ℤ) (rep : Option Repetition) :
      OasPlacementRecord
  | rawcellSkipped : OasPlacementRecord
deriving DecidableEq

/-- The PLACEMENT_TRANSFORM branch of the writer (library.cpp lines 291-305):
magnification is appended exactly when it differs from 1, rotation (converted
to degrees; rotation r in units of pi is r*180 degrees) exactly when it
differs from 0. -/
def mkPlacementTransform (info2 : Nat) (index : Nat) (x y : ℤ)
    (rep : Option Repetition) (mag rot : ℚ) : OasPlacementRecord :=
  let info3 := if mag ≠ 1 then info2 ||| 0x04 else info2
  let info4 := if rot ≠ 0 then info3 ||| 0x02 else info3
  OasPlacementRecord.placementTransform info4 index
    (if mag ≠ 1 then some mag else Option.none)
    (if rot ≠ 0 then some (rot * 180) else Option.none) x y rep

/-- The per-Reference emission of Library::write_oas (library.cpp lines
268-310).  The cell-name map lookup is supplied as the already-resolved
index.  The info byte starts at 0xF0 (explicit reference by number, explicit
x and y), gains 0x08 for a repetition and 0x01 for x-reflection, and the
record kind is chosen by magnification == 1 together with
is_multiple_of_pi_over_2(rotation). -/
def write_oas_reference (index : Nat) (scaling : ℚ) (ref : Reference) :
    OasPlacementRecord :=
  if ref.type = ReferenceType.RawCell then OasPlacementRecord.rawcellSkipped
  else
    let has_repetition := ref.repetition.get_size > 1
    let info0 : Nat := 0xF0
    let info1 := if has_repetition then info0 ||| 0x08 else info0
    let info2 := if ref.x_reflection then info1 ||| 0x01 else info1
    let x := llround (ref.origin.1 * scaling)
    let y := llround (ref.origin.2 * scaling)
    let rep := if has_repetition then some ref.repetition else Option.none
    match is_multiple_of_pi_over_2 ref.rotation with
    | some m =>
        if ref.magnification = 1 then
          OasPlacementRecord.placement (info2 ||| (placementQuadrant m <<< 1))
            index x y rep
        else mkPlacementTransform info2 index x y rep ref.magnification ref.rotation
    | Option.none => mkPlacementTransform info2 index x y rep ref.magnification ref.rotation

/-- A TEXT record as emitted by Library::write_oas for one Label
(library.cpp lines 312-334). -/
structure OasTextRecord where
  info : Nat
  textIndex : Nat
  textlayer : ℤ
  texttype : ℤ
  x : ℤ
  y : ℤ
  rep : Option Repetition
deriving DecidableEq

/-- The per-Label emission of Library::write_oas (library.cpp lines 312-334).
The text-string table index assignment is stateful over the whole write; the
already-assigned index is supplied.  The info byte is 0x7B, plus 0x04 when a
repetition is present. -/
def write_oas_label (textIndex : Nat) (scaling : ℚ) (label : Label) :
    OasTextRecord :=
  let has_repetition := label.repetition.get_size > 1
  let info := if has_repetition then 0x7B ||| 0x04 else 0x7B
  { info := info, textIndex := textIndex, textlayer := label.layer,
    texttype := label.texttype,
    x := llround (label.origin.1 * scaling),
    y := llround (label.origin.2 * scaling),
    rep := if has_repetition then some label.repetition else Option.none }

/-- The six table-offset entries written after the END record byte
(library.cpp lines 412-423): four present-flag/offset pairs for the
cell-name, text-string, prop-name and prop-string tables, then flag 1 with
offset 0 for the always-empty LAYERNAME and XNAME tables. -/
def oasisTableOffsets (o1 o2 o3 o4 : Nat) : List Nat :=
  1 :: oasisUnsignedBytes o1 ++ 1 :: oasisUnsignedBytes o2 ++
  1 :: oasisUnsignedBytes o3 ++ 1 :: oasisUnsignedBytes o4 ++ [1, 0, 1, 0]

/-- The END record and file tail written by Library::write_oas (library.cpp
lines 405-430), as the list of bytes appended to the file once the file
offset has reached endPos (so the END record byte, value 2, lands at offset
endPos).  pad_len is first set to 252 + ftell (just after the END byte),
then decremented by ftell after the table offsets, leaving 252 minus the
table length; the pad length is emitted as a varint followed by that many
zero bytes, and the final byte 0 is the empty validation scheme. -/
def write_oas_end_tail (endPos : Nat) (o1 o2 o3 o4 : Nat) : List Nat :=
  let afterEnd := endPos + 1
  let pad0 := 252 + afterEnd
  let tbl := oasisTableOffsets o1 o2 o3 o4
  let pad := pad0 - (afterEnd + tbl.length)
  2 :: tbl ++ oasisUnsignedBytes pad ++ List.replicate pad 0 ++ [0]

/-- The info byte of an emitted placement record, if any was emitted. -/
def OasPlacementRecord.infoByte : OasPlacementRecord → Option Nat
  | .placement i _ _ _ _ => some i
  | .placementTransform i _ _ _ _ _ _ => some i
  | .rawcellSkipped => Option.none

theorem oasisUnsignedBytes_length_pos (n : Nat) :
    1 ≤ (oasisUnsignedBytes n).length := by
  rw [oasisUnsignedBytes]
  split <;> simp

theorem oasisUnsignedBytes_length_le (k : Nat) :
    ∀ n : Nat, n < 128 ^ (k + 1) → (oasisUnsignedBytes n).length ≤ k + 1 := by
  induction k with
  | zero =>
      intro n hn
      rw [oasisUnsignedBytes, if_pos (by simpa using hn)]
      simp
  | succ k ih =>
      intro n hn
      rw [oasisUnsignedBytes]
      split
      · simp
      · have hdiv : n / 128 < 128 ^ (k + 1) := by
          apply Nat.div_lt_of_lt_mul
          calc n < 128 ^ (k + 1 + 1) := hn
            _ = 128 * 128 ^ (k + 1) := by ring
        simpa using Nat.succ_le_succ (ih (n / 128) hdiv)

theorem oasisUnsignedBytes_length_two (n : Nat) (h1 : 128 ≤ n)
    (h2 : n < 16384) : (oasisUnsignedBytes n).length = 2 := by
  rw [oasisUnsignedBytes, if_neg (by omega), oasisUnsignedBytes,
    if_pos (by omega)]
  simp

theorem placementQuadrant_lt (m : ℤ) : placementQuadrant m < 4 := by
  have h : ∀ x : Nat, x &&& 3 < 4 := fun x =>
    Nat.lt_succ_of_le (Nat.and_le_right)
  unfold placementQuadrant
  split <;> exact h _

/-- The C quadrant expression computes the mathematical residue of m
modulo 4 (the rotation quadrant). -/
theorem placementQuadrant_eq (m : ℤ) :
    placementQuadrant m = (m % 4).toNat := by
  have h3 : ∀ x : Nat, x &&& 3 = x % 4 := fun x =>
    Nat.and_pow_two_sub_one_eq_mod x 2
  rcases m with n | k
  · have ht : (Int.ofNat n).tmod 4 = Int.ofNat (n % 4) := rfl
    have hnn : ¬Int.ofNat n < 0 := (Int.ofNat_nonneg n).not_lt
    unfold placementQuadrant
    rw [if_neg hnn, h3, ht]
    have hc1 : Int.ofNat (n % 4) = ((n % 4 : Nat) : ℤ) := rfl
    have hc2 : Int.ofNat n = ((n : Nat) : ℤ) := rfl
    rw [hc1, hc2]
    have hcast : (((n % 4 : Nat)) : ℤ) = ((n : Nat) : ℤ) % 4 := by
      push_cast
      ring
    omega
  · have ht : (Int.negSucc k).tmod 4 = -Int.ofNat ((k + 1) % 4) := rfl
    unfold placementQuadrant
    rw [if_pos (Int.negSucc_lt_zero k), h3, ht]
    have hc1 : Int.ofNat ((k + 1) % 4) = (((k + 1) % 4 : Nat) : ℤ) := rfl
    rw [hc1, Int.negSucc_eq k]
    have hcast : ((((k + 1) % 4 : Nat)) : ℤ) = ((k : ℤ) + 1) % 4 := by
      push_cast
      ring
    omega

/-- C1: a Reference with magnification 1 and rotation an integer multiple
m of pi/2 is written as a compact PLACEMENT record whose info-byte bits
1-2 hold the rotation quadrant m mod 4; any other Reference is written as
a PLACEMENT_TRANSFORM record carrying the magnification exactly when it
differs from 1 and the rotation in degrees exactly when it differs
from 0. -/
theorem write_oas_reference_record_selection (index : Nat) (s : ℚ)
    (ref : Reference) (hraw : ref.type ≠ ReferenceType.RawCell) :
    (∀ m : ℤ, is_multiple_of_pi_over_2 ref.rotation = some m →
      ref.magnification = 1 →
      ∃ info x y rep,
        write_oas_reference index s ref =
          OasPlacementRecord.placement info index x y rep ∧
        (info >>> 1) &&& 0x03 = (m % 4).toNat) ∧
    ((ref.magnification ≠ 1 ∨ is_multiple_of_pi_over_2 ref.rotation = Option.none) →
      ∃ info x y rep,
        write_oas_reference index s ref =
          OasPlacementRecord.placementTransform info index
            (if ref.magnification ≠ 1 then some ref.magnification else Option.none)
            (if ref.rotation ≠ 0 then some (ref.rotation * 180) else Option.none)
            x y rep) := by
  constructor
  · intro m hm hmag
    unfold write_oas_reference
    rw [if_neg hraw, hm]
    simp only [if_pos hmag]
    refine ⟨_, _, _, _, rfl, ?_⟩
    rw [← placementQuadrant_eq m]
    have hq : placementQuadrant m < 4 := placementQuadrant_lt m
    set q := placementQuadrant m with hqdef
    split
    · split
      · interval_cases q <;> decide
      · interval_cases q <;> decide
    · split
      · interval_cases q <;> decide
      · interval_cases q <;> decide
  · intro hother
    unfold write_oas_reference
    rw [if_neg hraw]
    rcases hcase : is_multiple_of_pi_over_2 ref.rotation with _ | m
    · simp only []
      unfold mkPlacementTransform
      exact ⟨_, _, _, _, rfl⟩
    · rcases hother with hmag | hnone
      · simp only [if_neg hmag]
        unfold mkPlacementTransform
        exact ⟨_, _, _, _, rfl⟩
      · rw [hcase] at hnone
        exact absurd hnone (by simp)

/-- Witness for C1: a reference with magnification 1 and rotation pi/2
(one quadrant) is emitted as PLACEMENT with quadrant bits 01. -/
theorem write_oas_reference_record_selection_witness :
    ∃ info x y rep,
      write_oas_reference 0 1
        { type := ReferenceType.Cell, name := Option.none, cell := some 0,
          origin := (0, 0), magnification := 1, rotation := 1/2,
          x_reflection := false, repetition := Repetition.none,
          properties := [] } =
        OasPlacementRecord.placement info 0 x y rep ∧
      (info >>> 1) &&& 0x03 = ((1 : ℤ) % 4).toNat :=
  (write_oas_reference_record_selection 0 1
      { type := ReferenceType.Cell, name := Option.none, cell := some 0,
        origin := (0, 0), magnification := 1, rotation := 1/2,
        x_reflection := false, repetition := Repetition.none,
        properties := [] }
      (by decide)).1 1 (by norm_num [is_multiple_of_pi_over_2]) rfl

/-- C4: the byte sequence written from the END record onwards always has
length exactly 256 (so the file length is the offset of the END record byte
plus 256) and its last byte is the single zero byte meaning "no validation
signature". -/
theorem write_oas_end_tail_length (endPos o1 o2 o3 o4 : Nat)
    (h1 : o1 < 2 ^ 64) (h2 : o2 < 2 ^ 64) (h3 : o3 < 2 ^ 64)
    (h4 : o4 < 2 ^ 64) :
    (write_oas_end_tail endPos o1 o2 o3 o4).length = 256 ∧
    ∃ front, write_oas_end_tail endPos o1 o2 o3 o4 = front ++ [0] ∧
      front.length = 255 := by
  have hbound : ∀ o : Nat, o < 2 ^ 64 → (oasisUnsignedBytes o).length ≤ 10 := by
    intro o ho
    exact oasisUnsignedBytes_length_le 9 o (by
      calc o < 2 ^ 64 := ho
        _ ≤ 128 ^ 10 := by norm_num)
  have l1 := oasisUnsignedBytes_length_pos o1
  have l2 := oasisUnsignedBytes_length_pos o2
  have l3 := oasisUnsignedBytes_length_pos o3
  have l4 := oasisUnsignedBytes_length_pos o4
  have u1 := hbound o1 h1
  have u2 := hbound o2 h2
  have u3 := hbound o3 h3
  have u4 := hbound o4 h4
  have htbl : (oasisTableOffsets o1 o2 o3 o4).length =
      4 + ((oasisUnsignedBytes o1).length + (oasisUnsignedBytes o2).length +
        (oasisUnsignedBytes o3).length + (oasisUnsignedBytes o4).length) + 4 := by
    simp [oasisTableOffsets]
    omega
  set L := (oasisTableOffsets o1 o2 o3 o4).length with hL
  have hLlo : 12 ≤ L := by omega
  have hLhi : L ≤ 48 := by omega
  have hpad : 252 + (endPos + 1) - (endPos + 1 + L) = 252 - L := by omega
  have hvar : (oasisUnsignedBytes (252 - L)).length = 2 :=
    oasisUnsignedBytes_length_two _ (by omega) (by omega)
  constructor
  · simp only [write_oas_end_tail, hpad]
    simp [hvar]
    omega
  · refine ⟨2 :: oasisTableOffsets o1 o2 o3 o4 ++
      oasisUnsignedBytes (252 + (endPos + 1) - (endPos + 1 + L)) ++
      List.replicate (252 + (endPos + 1) - (endPos + 1 + L)) 0, ?_, ?_⟩
    · simp [write_oas_end_tail]
    · simp only [hpad]
      simp [hvar]
      omega

/-- Witness for C4: with all four table offsets zero the tail has length
256 and ends in a zero byte. -/
theorem write_oas_end_tail_length_witness :
    (write_oas_end_tail 0 0 0 0 0).length = 256 ∧
    ∃ front, write_oas_end_tail 0 0 0 0 0 = front ++ [0] ∧
      front.length = 255 :=
  write_oas_end_tail_length 0 0 0 0 0 (by norm_num) (by norm_num)
    (by norm_num) (by norm_num)

/-- C10: the writer never relies on OASIS modal variables: every PLACEMENT
or PLACEMENT_TRANSFORM record it emits has info-byte bits 0xF0 set
(explicit cell reference number, explicit x and y), and every TEXT record
it emits has at least info-byte bits 0x7B set (explicit text reference
number, textlayer, texttype, x and y). -/
theorem write_oas_explicit_info_bits :
    (∀ (index : Nat) (s : ℚ) (ref : Reference),
      ref.type ≠ ReferenceType.RawCell →
      ∃ info, (write_oas_reference index s ref).infoByte = some info ∧
        info &&& 0xF0 = 0xF0) ∧
    (∀ (ti : Nat) (s : ℚ) (lab : Label),
      (write_oas_label ti s lab).info &&& 0x7B = 0x7B) := by
  constructor
  · intro index s ref hraw
    unfold write_oas_reference
    rw [if_neg hraw]
    rcases hcase : is_multiple_of_pi_over_2 ref.rotation with _ | m
    · unfold mkPlacementTransform OasPlacementRecord.infoByte
      refine ⟨_, rfl, ?_⟩
      split <;> split <;> split <;> (try split) <;> decide
    · by_cases hmag : ref.magnification = 1
      · simp only [if_pos hmag]
        unfold OasPlacementRecord.infoByte
        refine ⟨_, rfl, ?_⟩
        have hq : placementQuadrant m < 4 := placementQuadrant_lt m
        set q := placementQuadrant m with hqdef
        split <;> split <;> interval_cases q <;> decide
      · simp only [if_neg hmag]
        unfold mkPlacementTransform OasPlacementRecord.infoByte
        refine ⟨_, rfl, ?_⟩
        split <;> split <;> split <;> (try split) <;> decide
  · intro ti s lab
    simp only [write_oas_label]
    split <;> decide

/-- Witness for C10: a plain cell reference is emitted with all of bits
0xF0 set in the info byte. -/
theorem write_oas_explicit_info_bits_witness :
    ∃ info,
      (write_oas_reference 0 1
        { type := ReferenceType.Cell, name := Option.none, cell := some 0,
          origin := (0, 0), magnification := 1, rotation := 0,
          x_reflection := false, repetition := Repetition.none,
          properties := [] }).infoByte =
        some info ∧ info &&& 0xF0 = 0xF0 :=
  write_oas_explicit_info_bits.1 0 1
    { type := ReferenceType.Cell, name := Option.none, cell := some 0,
      origin := (0, 0), magnification := 1, rotation := 0,
      x_reflection := false, repetition := Repetition.none,
      properties := [] } (by decide)

/-! ## GDSII reader (read_gds, library.cpp lines 442-808)

The reader is record-driven.  A record list stands for the decoded record
stream: payloads carry the already byte-swapped values (Int for 16/32-bit
signed integers, Nat for bit arrays, exact rationals for 8-byte reals,
strings with any trailing NUL already stripped, coordinate pairs for XY).
Heap allocation is modelled with explicit stores indexed by allocation
order, so the C pattern of appending a pointer to an array and mutating the
element afterwards keeps its aliasing behavior. -/

/-- Path end types from flexpath.h (not under src/), as selected by the
PATHTYPE handler. -/
inductive EndType where
  | Flush : EndType
  | Round : EndType
  | HalfWidth : EndType
  | Extended : EndType
deriving DecidableEq

/-- A gdstk Polygon as far as the readers build one. -/
structure GPolygon where
  layer : ℤ
  datatype : ℤ
  points : List Vec2
  repetition : Repetition
  properties : List (ℤ × String)
deriving DecidableEq

/-- A gdstk FlexPath with its single element, as built by the readers
(read_gds allocates num_elements = 1). -/
structure GFlexPath where
  layer : ℤ
  datatype : ℤ
  spine : List Vec2
  tolerance : ℚ
  half_width_and_offset : List Vec2
  end_type : EndType
  end_extensions : Vec2
  gdsii_path : Bool
  scale_width : Bool
  repetition : Repetition
  properties : List (ℤ × String)
deriving DecidableEq

/-- A gdstk Cell during parsing: element arrays hold store indices
(pointers). -/
structure GCell where
  name : Option String
  polygons : List Nat
  flexpaths : List Nat
  references : List Nat
  labels : List Nat
deriving DecidableEq

/-- The local state of read_gds: the library being filled, the allocation
stores, the currently open cell/element pointers, and the factor, width and
key locals. -/
structure GState where
  libName : Option String
  libUnit : ℚ
  libPrecision : ℚ
  cellStore : List GCell
  libCells : List Nat
  polyStore : List GPolygon
  pathStore : List GFlexPath
  refStore : List Reference
  labelStore : List Label
  cell : Option Nat
  polygon : Option Nat
  path : Option Nat
  reference : Option Nat
  label : Option Nat
  factor : ℚ
  width : ℚ
  key : ℤ
deriving DecidableEq

/-- The state at entry of read_gds: zero-initialized library, null
pointers, factor = 1, width = 0, key = 0. -/
def initGState : GState :=
  { libName := Option.none, libUnit := 0, libPrecision := 0, cellStore := [],
    libCells := [], polyStore := [], pathStore := [], refStore := [],
    labelStore := [], cell := Option.none, polygon := Option.none,
    path := Option.none, reference := Option.none, label := Option.none,
    factor := 1, width := 0, key := 0 }

/-- The decoded GDSII record stream.  Records the reader logs and skips
(NODE, PLEX, ...) are collapsed into UNSUPPORTED. -/
inductive GdsRecord where
  | HEADER : GdsRecord
  | BGNLIB : GdsRecord
  | ENDSTR : GdsRecord
  | LIBNAME (name : String) : GdsRecord
  | UNITS (db_in_user db_in_meters : ℚ) : GdsRecord
  | ENDLIB : GdsRecord
  | BGNSTR : GdsRecord
  | STRNAME (name : String) : GdsRecord
  | BOUNDARY : GdsRecord
  | BOX : GdsRecord
  | PATH : GdsRecord
  | SREF : GdsRecord
  | AREF : GdsRecord
  | TEXT : GdsRecord
  | LAYER (v : ℤ) : GdsRecord
  | DATATYPE (v : ℤ) : GdsRecord
  | BOXTYPE (v : ℤ) : GdsRecord
  | WIDTH (v : ℤ) : GdsRecord
  | XY (pts : List (ℤ × ℤ)) : GdsRecord
  | ENDEL : GdsRecord
  | SNAME (name : String) : GdsRecord
  | COLROW (columns rows : ℤ) : GdsRecord
  | TEXTTYPE (v : ℤ) : GdsRecord
  | PRESENTATION (v : Nat) : GdsRecord
  | STRING (text : String) : GdsRecord
  | STRANS (v : Nat) : GdsRecord
  | MAG (v : ℚ) : GdsRecord
  | ANGLE (degrees : ℚ) : GdsRecord
  | PATHTYPE (v : ℤ) : GdsRecord
  | PROPATTR (v : ℤ) : GdsRecord
  | PROPVALUE (s : String) : GdsRecord
  | BGNEXTN (v : ℤ) : GdsRecord
  | ENDEXTN (v : ℤ) : GdsRecord
  | UNSUPPORTED : GdsRecord
deriving DecidableEq

/-- Coordinate scaling: the reader multiplies every 32-bit coordinate by
the factor local. -/
def scaled (factor : ℚ) (p : ℤ × ℤ) : Vec2 := (factor * p.1, factor * p.2)

def GState.modifyPoly (st : GState) (i : Nat) (f : GPolygon → GPolygon) :
    GState :=
  { st with polyStore := List.modify f i st.polyStore }

def GState.modifyPath (st : GState) (i : Nat) (f : GFlexPath → GFlexPath) :
    GState :=
  { st with pathStore := List.modify f i st.pathStore }

def GState.modifyRef (st : GState) (i : Nat) (f : Reference → Reference) :
    GState :=
  { st with refStore := List.modify f i st.refStore }

def GState.modifyLabel (st : GState) (i : Nat) (f : Label → Label) :
    GState :=
  { st with labelStore := List.modify f i st.labelStore }

def GState.modifyCell (st : GState) (i : Nat) (f : GCell → GCell) : GState :=
  { st with cellStore := List.modify f i st.cellStore }

/-- BOUNDARY/BOX handler: allocate a cleared polygon, append it to the open
cell (if any) and leave it as the open element. -/
def openPolygon (st : GState) : GState :=
  let idx := st.polyStore.length
  let st1 := { st with
    polyStore := st.polyStore ++ [(⟨0, 0, [], Repetition.none, []⟩ : GPolygon)],
    polygon := some idx }
  match st1.cell with
  | some ci => st1.modifyCell ci (fun c => { c with polygons := c.polygons ++ [idx] })
  | Option.none => st1

/-- PATH handler: allocate a cleared one-element flexpath with
gdsii_path = true. -/
def openPath (st : GState) : GState :=
  let idx := st.pathStore.length
  let st1 := { st with
    pathStore := st.pathStore ++
      [(⟨0, 0, [], 0, [], EndType.Flush, (0, 0), true, false, Repetition.none,
        []⟩ : GFlexPath)],
    path := some idx }
  match st1.cell with
  | some ci => st1.modifyCell ci (fun c => { c with flexpaths := c.flexpaths ++ [idx] })
  | Option.none => st1

/-- SREF/AREF handler: allocate a cleared reference with magnification 1. -/
def openReference (st : GState) : GState :=
  let idx := st.refStore.length
  let st1 := { st with
    refStore := st.refStore ++
      [(⟨ReferenceType.Cell, Option.none, Option.none, (0, 0), 1, 0, false,
        Repetition.none, []⟩ : Reference)],
    reference := some idx }
  match st1.cell with
  | some ci => st1.modifyCell ci (fun c => { c with references := c.references ++ [idx] })
  | Option.none => st1

/-- TEXT handler: allocate a cleared label. -/
def openLabel (st : GState) : GState :=
  let idx := st.labelStore.length
  let st1 := { st with
    labelStore := st.labelStore ++
      [(⟨Option.none, Option.none, 0, 0, (0, 0), 0, 0, 0, false, Repetition.none,
        []⟩ : Label)],
    label := some idx }
  match st1.cell with
  | some ci => st1.modifyCell ci (fun c => { c with labels := c.labels ++ [idx] })
  | Option.none => st1

/-- Modelled from the spec: FlexPath::segment (flexpath.cpp, not under
src/): "Appends spine points to a path"; with relative = false the points
are absolute, with relative = true they are offsets from the path's last
spine point. -/
def segmentPath (p : GFlexPath) (pts : List Vec2) (relative : Bool) :
    GFlexPath :=
  if relative then
    let base := (p.spine.getLast?).getD (0, 0)
    { p with spine := p.spine ++ pts.map (fun q => (base.1 + q.1, base.2 + q.2)) }
  else { p with spine := p.spine ++ pts }

/-- The XY handler for an open reference (library.cpp lines 644-663): the
first pair is the origin; for an AREF (repetition already set by COLROW)
the second and third pairs give the column and row displacement, divided by
the counts; an unrotated, unreflected reference keeps the Rectangular
spacing form, any other becomes Regular.  Out-of-range payload reads
(malformed AREF with fewer than three pairs) read stale buffer bytes in C
and are modelled as 0. -/
def referenceXY (factor : ℚ) (pts : List (ℤ × ℤ)) (ref : Reference) :
    Reference :=
  let origin := scaled factor (pts.getD 0 (0, 0))
  let ref1 := { ref with origin := origin }
  match ref1.repetition with
  | Repetition.rectangular cols rows _ =>
      let x2 : ℚ := factor * (pts.getD 1 (0, 0)).1
      let y3 : ℚ := factor * (pts.getD 1 (0, 0)).2
      let x4 : ℚ := factor * (pts.getD 2 (0, 0)).1
      let y5 : ℚ := factor * (pts.getD 2 (0, 0)).2
      if ref1.rotation = 0 ∧ ref1.x_reflection = false then
        { ref1 with repetition := (Repetition.rectangular cols rows
            ((x2 - origin.1) / cols, (y5 - origin.2) / rows)) }
      else
        { ref1 with repetition := (Repetition.regular cols rows
            ((x2 - origin.1) / cols, (y3 - origin.2) / cols)
            ((x4 - origin.1) / rows, (y5 - origin.2) / rows)) }
  | _ => ref1

/-- One step of the read_gds record loop (library.cpp lines 512-803),
covering every record the C switch handles; ENDLIB is handled by the
enclosing loop. -/
def gdsStep (unitParam tolerance : ℚ) (st : GState) (r : GdsRecord) :
    GState :=
  match r with
  | GdsRecord.HEADER => st
  | GdsRecord.BGNLIB => st
  | GdsRecord.ENDSTR => st
  | GdsRecord.LIBNAME nm => { st with libName := some nm }
  | GdsRecord.UNITS db_in_user db_in_meters =>
      if unitParam > 0 then
        { st with factor := db_in_meters / unitParam, libUnit := unitParam,
                  libPrecision := db_in_meters }
      else
        { st with factor := db_in_user,
                  libUnit := db_in_meters / db_in_user,
                  libPrecision := db_in_meters }
  | GdsRecord.ENDLIB => st
  | GdsRecord.BGNSTR =>
      { st with
        cellStore := st.cellStore ++ [(⟨Option.none, [], [], [], []⟩ : GCell)],
        cell := some st.cellStore.length }
  | GdsRecord.STRNAME nm =>
      match st.cell with
      | some i =>
          let st1 := st.modifyCell i (fun c => { c with name := some nm })
          { st1 with libCells := st1.libCells ++ [i] }
      | Option.none => st
  | GdsRecord.BOUNDARY => openPolygon st
  | GdsRecord.BOX => openPolygon st
  | GdsRecord.PATH => openPath st
  | GdsRecord.SREF => openReference st
  | GdsRecord.AREF => openReference st
  | GdsRecord.TEXT => openLabel st
  | GdsRecord.LAYER v =>
      match st.polygon with
      | some i => st.modifyPoly i (fun p => { p with layer := v })
      | Option.none =>
        match st.path with
        | some i => st.modifyPath i (fun p => { p with layer := v })
        | Option.none =>
          match st.label with
          | some i => st.modifyLabel i (fun l => { l with layer := v })
          | Option.none => st
  | GdsRecord.DATATYPE v =>
      match st.polygon with
      | some i => st.modifyPoly i (fun p => { p with datatype := v })
      | Option.none =>
        match st.path with
        | some i => st.modifyPath i (fun p => { p with datatype := v })
        | Option.none => st
  | GdsRecord.BOXTYPE v =>
      match st.polygon with
      | some i => st.modifyPoly i (fun p => { p with datatype := v })
      | Option.none =>
        match st.path with
        | some i => st.modifyPath i (fun p => { p with datatype := v })
        | Option.none => st
  | GdsRecord.WIDTH v =>
      if v < 0 then
        let st1 := { st with width := st.factor * ((-v : ℤ) : ℚ) }
        match st1.path with
        | some i => st1.modifyPath i (fun p => { p with scale_width := false })
        | Option.none => st1
      else
        let st1 := { st with width := st.factor * (v : ℚ) }
        match st1.path with
        | some i => st1.modifyPath i (fun p => { p with scale_width := true })
        | Option.none => st1
  | GdsRecord.XY pts =>
      match st.polygon with
      | some i =>
          st.modifyPoly i (fun p =>
            { p with points := p.points ++ pts.map (scaled st.factor) })
      | Option.none =>
        match st.path with
        | some i =>
            st.modifyPath i (fun p =>
              if p.spine.isEmpty then
                let p1 := { p with
                  tolerance := tolerance,
                  spine := [scaled st.factor (pts.getD 0 (0, 0))],
                  half_width_and_offset :=
                    p.half_width_and_offset ++ [(st.width / 2, 0)] }
                segmentPath p1 ((pts.drop 1).map (scaled st.factor)) false
              else segmentPath p (pts.map (scaled st.factor)) false)
        | Option.none =>
          match st.reference with
          | some i => st.modifyRef i (referenceXY st.factor pts)
          | Option.none =>
            match st.label with
            | some i =>
                st.modifyLabel i (fun l =>
                  { l with origin := scaled st.factor (pts.getD 0 (0, 0)) })
            | Option.none => st
  | GdsRecord.ENDEL =>
      let st1 :=
        match st.polygon with
        | some i =>
            let st2 := st.modifyPoly i
              (fun p => { p with points := p.points.dropLast })
            { st2 with polygon := Option.none }
        | Option.none => st
      { st1 with path := Option.none, reference := Option.none,
                 label := Option.none }
  | GdsRecord.SNAME nm =>
      match st.reference with
      | some i => st.modifyRef i (fun ref =>
          { ref with name := some nm, type := ReferenceType.Name })
      | Option.none => st
  | GdsRecord.COLROW c r =>
      match st.reference with
      | some i => st.modifyRef i (fun ref =>
          { ref with repetition := Repetition.rectangular c.toNat r.toNat (0, 0) })
      | Option.none => st
  | GdsRecord.TEXTTYPE v =>
      match st.label with
      | some i => st.modifyLabel i (fun l => { l with texttype := v })
      | Option.none => st
  | GdsRecord.PRESENTATION v =>
      match st.label with
      | some i => st.modifyLabel i (fun l => { l with anchor := v &&& 0x000F })
      | Option.none => st
  | GdsRecord.STRING s =>
      match st.label with
      | some i => st.modifyLabel i (fun l => { l with text := some s })
      | Option.none => st
  | GdsRecord.STRANS v =>
      match st.reference with
      | some i => st.modifyRef i (fun ref =>
          { ref with x_reflection := decide (v &&& 0x8000 ≠ 0) })
      | Option.none =>
        match st.label with
        | some i => st.modifyLabel i (fun l =>
            { l with x_reflection := decide (v &&& 0x8000 ≠ 0) })
        | Option.none => st
  | GdsRecord.MAG v =>
      match st.reference with
      | some i => st.modifyRef i (fun ref => { ref with magnification := v })
      | Option.none =>
        match st.label with
        | some i => st.modifyLabel i (fun l => { l with magnification := v })
        | Option.none => st
  | GdsRecord.ANGLE degrees =>
      match st.reference with
      | some i => st.modifyRef i (fun ref => { ref with rotation := degrees / 180 })
      | Option.none =>
        match st.label with
        | some i => st.modifyLabel i (fun l => { l with rotation := degrees / 180 })
        | Option.none => st
  | GdsRecord.PATHTYPE v =>
      match st.path with
      | some i => st.modifyPath i (fun p =>
          { p with end_type :=
              if v = 0 then EndType.Flush
              else if v = 1 then EndType.Round
              else if v = 2 then EndType.HalfWidth
              else EndType.Extended })
      | Option.none => st
  | GdsRecord.PROPATTR v => { st with key := v }
  | GdsRecord.PROPVALUE s =>
      match st.polygon with
      | some i => st.modifyPoly i (fun p =>
          { p with properties := p.properties ++ [(st.key, s)] })
      | Option.none =>
        match st.path with
        | some i => st.modifyPath i (fun p =>
            { p with properties := p.properties ++ [(st.key, s)] })
        | Option.none =>
          match st.reference with
          | some i => st.modifyRef i (fun ref =>
              { ref with properties := ref.properties ++ [(st.key, s)] })
          | Option.none =>
            match st.label with
            | some i => st.modifyLabel i (fun l =>
                { l with properties := l.properties ++ [(st.key, s)] })
            | Option.none => st
  | GdsRecord.BGNEXTN v =>
      match st.path with
      | some i => st.modifyPath i (fun p =>
          { p with end_extensions := (st.factor * (v : ℚ), p.end_extensions.2) })
      | Option.none => st
  | GdsRecord.ENDEXTN v =>
      match st.path with
      | some i => st.modifyPath i (fun p =>
          { p with end_extensions := (p.end_extensions.1, st.factor * (v : ℚ)) })
      | Option.none => st
  | GdsRecord.UNSUPPORTED => st

/-- A cell of the returned library, with elements materialized from the
stores. -/
structure GLibCell where
  name : Option String
  polygons : List GPolygon
  flexpaths : List GFlexPath
  references : List Reference
  labels : List Label
deriving DecidableEq

/-- The returned library of read_gds. -/
structure GLibrary where
  name : Option String
  unit : ℚ
  precision : ℚ
  cells : List GLibCell
deriving DecidableEq

/-- The zero-initialized Library, as returned by read_gds on open failure
and on end-of-file without ENDLIB. -/
def emptyGLibrary : GLibrary :=
  { name := Option.none, unit := 0, precision := 0, cells := [] }

def materializeCell (st : GState) (c : GCell) : GLibCell :=
  { name := c.name,
    polygons := c.polygons.filterMap (st.polyStore.get? ·),
    flexpaths := c.flexpaths.filterMap (st.pathStore.get? ·),
    references := c.references.filterMap (st.refStore.get? ·),
    labels := c.labels.filterMap (st.labelStore.get? ·) }

/-- The library as it stands in the parser state (store indices are always
in range by construction, so the filterMap drops nothing). -/
def materializeG (st : GState) : GLibrary :=
  { name := st.libName, unit := st.libUnit, precision := st.libPrecision,
    cells := st.libCells.filterMap
      (fun i => (st.cellStore.get? i).map (materializeCell st)) }

/-- The ENDLIB name map (library.cpp lines 536-540): the hash map is built
by Map::set over the cells in array order and set overwrites, so with
duplicate names the last cell appended wins.  Returns the index of the
cell a name resolves to. -/
def cellsLookup : List GLibCell → String → Option Nat
  | [], _ => Option.none
  | c :: cs, nm =>
      match cellsLookup cs nm with
      | some j => some (j + 1)
      | Option.none => if c.name = some nm then some 0 else Option.none

/-- The per-reference body of the ENDLIB resolution loop (library.cpp lines
546-552): if the name resolves to a cell, free the name and turn the
reference into a resolved Cell reference; otherwise leave it untouched.
A reference whose name was never set (no SNAME) dereferences a null name in
C; it is modelled as left untouched. -/
def resolveRef (lookup : String → Option Nat) (r : Reference) : Reference :=
  match r.name with
  | Option.none => r
  | some nm =>
      match lookup nm with
      | some i =>
          { r with type := ReferenceType.Cell, cell := some i,
                   name := Option.none }
      | Option.none => r

/-- The ENDLIB handler (library.cpp lines 535-558): build the name map and
rewrite every reference of every library cell. -/
def resolveGLibrary (lib : GLibrary) : GLibrary :=
  { lib with cells := lib.cells.map (fun c =>
      { c with references := c.references.map (resolveRef (cellsLookup lib.cells)) }) }

/-- The read_gds record loop: ENDLIB resolves names and returns the library;
running out of records returns the zero-initialized Library (library.cpp
lines 804-807). -/
def read_gds_records (unitParam tolerance : ℚ) :
    GState → List GdsRecord → GLibrary
  | _, [] => emptyGLibrary
  | st, r :: rs =>
      if r = GdsRecord.ENDLIB then resolveGLibrary (materializeG st)
      else read_gds_records unitParam tolerance
        (gdsStep unitParam tolerance st r) rs

/-- read_gds on a successfully opened file, starting from the
zero-initialized state. -/
def read_gds (unitParam tolerance : ℚ) (records : List GdsRecord) :
    GLibrary :=
  read_gds_records unitParam tolerance initGState records

/-- read_gds including the fopen failure path (library.cpp lines 475-479):
when the input file cannot be opened, log to stderr and return the
zero-initialized empty library. -/
def read_gds_file (unitParam tolerance : ℚ) :
    Option (List GdsRecord) → GLibrary
  | Option.none => emptyGLibrary
  | some rs => read_gds unitParam tolerance rs

/-- Folding the step function over a record list (used to state properties
of record subsequences inside the read loop). -/
def gdsRun (unitParam tolerance : ℚ) (st : GState)
    (recs : List GdsRecord) : GState :=
  recs.foldl (gdsStep unitParam tolerance) st

theorem read_gds_records_no_endlib (u t : ℚ) (recs : List GdsRecord) :
    ∀ st : GState, GdsRecord.ENDLIB ∉ recs →
      read_gds_records u t st recs = emptyGLibrary := by
  induction recs with
  | nil => intro st h; rfl
  | cons r rs ih =>
      intro st h
      rw [read_gds_records, if_neg (fun hr : r = GdsRecord.ENDLIB =>
        h (hr ▸ List.mem_cons_self r rs))]
      exact ih _ (fun hm => h (List.mem_cons_of_mem r hm))

/-- C9: a GDSII record stream that ends (or is cut off) without an ENDLIB
record makes read_gds return the zero-initialized empty library, discarding
everything parsed; only the ENDLIB branch returns the populated library. -/
theorem read_gds_eof_returns_empty (u t : ℚ) (recs : List GdsRecord)
    (h : GdsRecord.ENDLIB ∉ recs) : read_gds u t recs = emptyGLibrary :=
  read_gds_records_no_endlib u t recs initGState h

/-- Witness for C9: a stream holding a cell but no ENDLIB yields the empty
library. -/
theorem read_gds_eof_returns_empty_witness :
    read_gds 0 0 [GdsRecord.BGNSTR, GdsRecord.STRNAME "A"] = emptyGLibrary :=
  read_gds_eof_returns_empty 0 0 [GdsRecord.BGNSTR, GdsRecord.STRNAME "A"]
    (by decide)

theorem read_gds_records_endlib (u t : ℚ) (recs : List GdsRecord) :
    ∀ st : GState, GdsRecord.ENDLIB ∈ recs →
      ∃ st' : GState, read_gds_records u t st recs =
        resolveGLibrary (materializeG st') := by
  induction recs with
  | nil => intro st h; exact absurd h (List.not_mem_nil _)
  | cons r rs ih =>
      intro st h
      rw [read_gds_records]
      by_cases hr : r = GdsRecord.ENDLIB
      · rw [if_pos hr]
        exact ⟨st, rfl⟩
      · rw [if_neg hr]
        exact ih _ ((List.mem_cons.mp h).resolve_left (fun he => hr he.symm))

theorem cellsLookup_map_of_name_eq (f : GLibCell → GLibCell)
    (hf : ∀ c, (f c).name = c.name) (cells : List GLibCell) (nm : String) :
    cellsLookup (cells.map f) nm = cellsLookup cells nm := by
  induction cells with
  | nil => rfl
  | cons c cs ih => simp [cellsLookup, ih, hf]

theorem resolveGLibrary_lookup (lib : GLibrary) (nm : String) :
    cellsLookup (resolveGLibrary lib).cells nm = cellsLookup lib.cells nm := by
  simp only [resolveGLibrary]
  exact cellsLookup_map_of_name_eq
    (fun c => { c with
      references := c.references.map (resolveRef (cellsLookup lib.cells)) })
    (fun c => rfl) lib.cells nm

theorem resolveGLibrary_no_unresolved (lib : GLibrary) :
    ∀ c ∈ (resolveGLibrary lib).cells, ∀ r ∈ c.references,
      r.type = ReferenceType.Name → ∀ nm, r.name = some nm →
        cellsLookup (resolveGLibrary lib).cells nm = Option.none := by
  intro c hc r hr hty nm hnm
  rw [resolveGLibrary_lookup]
  simp only [resolveGLibrary, List.mem_map] at hc
  obtain ⟨c0, hc0, rfl⟩ := hc
  simp only [List.mem_map] at hr
  obtain ⟨r0, hr0, rfl⟩ := hr
  unfold resolveRef at hnm
  cases hname : r0.name with
  | none => simp [hname] at hnm
  | some nm0 =>
      simp only [hname] at hnm
      cases hlook : cellsLookup lib.cells nm0 with
      | none =>
          simp only [hlook, hname] at hnm
          have hnmeq : nm0 = nm := by simpa using hnm
          exact hnmeq ▸ hlook
      | some i =>
          simp only [hlook] at hnm
          simp at hnm

/-- C2: for any record stream holding an ENDLIB record, the library that
read_gds returns has no reference left in Name state whose name matches a
library cell; and the ENDLIB resolution step turns every reference whose
name resolves into a Cell reference pointing at the cell of that name with
the name freed, while leaving references whose name matches no cell
unchanged. -/
theorem read_gds_resolves_references (u t : ℚ) (recs : List GdsRecord)
    (hend : GdsRecord.ENDLIB ∈ recs) :
    (∀ c ∈ (read_gds u t recs).cells, ∀ r ∈ c.references,
        r.type = ReferenceType.Name → ∀ nm, r.name = some nm →
          cellsLookup (read_gds u t recs).cells nm = Option.none) ∧
    (∀ (lib : GLibrary) (r : Reference) (nm : String), r.name = some nm →
        (∀ i, cellsLookup lib.cells nm = some i →
          resolveRef (cellsLookup lib.cells) r =
            { r with type := ReferenceType.Cell, cell := some i,
                     name := Option.none }) ∧
        (cellsLookup lib.cells nm = Option.none →
          resolveRef (cellsLookup lib.cells) r = r)) := by
  constructor
  · obtain ⟨st', hst⟩ := read_gds_records_endlib u t recs initGState hend
    rw [read_gds, hst]
    exact resolveGLibrary_no_unresolved (materializeG st')
  · intro lib r nm hnm
    constructor
    · intro i hi
      simp only [resolveRef, hnm, hi]
    · intro hnone
      simp only [resolveRef, hnm, hnone]

/-- Witness for C2: a stream defining cell X and a reference by name to X,
closed by ENDLIB. -/
theorem read_gds_resolves_references_witness :
    (∀ c ∈ (read_gds 0 0 [GdsRecord.BGNSTR, GdsRecord.STRNAME "X",
          GdsRecord.SREF, GdsRecord.SNAME "X", GdsRecord.ENDEL,
          GdsRecord.ENDLIB]).cells, ∀ r ∈ c.references,
        r.type = ReferenceType.Name → ∀ nm, r.name = some nm →
          cellsLookup (read_gds 0 0 [GdsRecord.BGNSTR, GdsRecord.STRNAME "X",
            GdsRecord.SREF, GdsRecord.SNAME "X", GdsRecord.ENDEL,
            GdsRecord.ENDLIB]).cells nm = Option.none) ∧
    (∀ (lib : GLibrary) (r : Reference) (nm : String), r.name = some nm →
        (∀ i, cellsLookup lib.cells nm = some i →
          resolveRef (cellsLookup lib.cells) r =
            { r with type := ReferenceType.Cell, cell := some i,
                     name := Option.none }) ∧
        (cellsLookup lib.cells nm = Option.none →
          resolveRef (cellsLookup lib.cells) r = r)) :=
  read_gds_resolves_references 0 0 _ (by decide)

theorem gdsRun_xy (u t : ℚ) (xys : List (List (ℤ × ℤ))) :
    ∀ (st : GState) (i : Nat) (p : GPolygon), st.polygon = some i →
      st.polyStore[i]? = some p →
      (gdsRun u t st (xys.map GdsRecord.XY)).polygon = some i ∧
      (gdsRun u t st (xys.map GdsRecord.XY)).factor = st.factor ∧
      (gdsRun u t st (xys.map GdsRecord.XY)).polyStore[i]? =
        some { p with points :=
          p.points ++ (xys.flatten).map (scaled st.factor) } := by
  induction xys with
  | nil =>
      intro st i p hpoly hstore
      refine ⟨hpoly, rfl, ?_⟩
      simpa [gdsRun] using hstore
  | cons xy xys ih =>
      intro st i p hpoly hstore
      have hstep : gdsStep u t st (GdsRecord.XY xy) =
          st.modifyPoly i (fun q =>
            { q with points := q.points ++ xy.map (scaled st.factor) }) := by
        unfold gdsStep
        rw [hpoly]
      have hrun : gdsRun u t st ((xy :: xys).map GdsRecord.XY) =
          gdsRun u t (gdsStep u t st (GdsRecord.XY xy)) (xys.map GdsRecord.XY) := rfl
      set st1 := st.modifyPoly i (fun q =>
        { q with points := q.points ++ xy.map (scaled st.factor) }) with hst1
      have h1 : st1.polygon = some i := hpoly
      have h2 : st1.factor = st.factor := rfl
      have h3 : st1.polyStore[i]? =
          some { p with points := p.points ++ xy.map (scaled st.factor) } := by
        simp only [hst1, GState.modifyPoly, List.getElem?_modify, hstore]
        simp
      obtain ⟨ha, hb, hc⟩ := ih st1 i
        { p with points := p.points ++ xy.map (scaled st.factor) } h1 h3
      rw [hrun, hstep]
      refine ⟨ha, by rw [hb, h2], ?_⟩
      rw [hc, h2]
      simp [List.append_assoc]

/-- C7: a polygon opened by BOUNDARY or BOX whose XY records supply a
nonempty point list is stored, after ENDEL, with exactly one point fewer
than were supplied: the trailing closing vertex is dropped. -/
theorem read_gds_polygon_drops_closing_vertex (u t : ℚ) (st : GState)
    (b : GdsRecord) (hb : b = GdsRecord.BOUNDARY ∨ b = GdsRecord.BOX)
    (xys : List (List (ℤ × ℤ))) (hne : xys.flatten ≠ []) :
    ∃ p : GPolygon,
      (gdsRun u t st (b :: xys.map GdsRecord.XY ++
          [GdsRecord.ENDEL])).polyStore[st.polyStore.length]? = some p ∧
      p.points = ((xys.flatten).map (scaled st.factor)).dropLast ∧
      p.points.length + 1 = (xys.flatten).length := by
  set i := st.polyStore.length with hi
  have hopen : gdsStep u t st b = openPolygon st := by
    rcases hb with rfl | rfl <;> rfl
  have hopoly : (openPolygon st).polygon = some i := by
    unfold openPolygon
    cases h : st.cell <;> simp [GState.modifyCell]
  have hofactor : (openPolygon st).factor = st.factor := by
    unfold openPolygon
    cases h : st.cell <;> simp [GState.modifyCell]
  have hostore : (openPolygon st).polyStore[i]? =
      some (⟨0, 0, [], Repetition.none, []⟩ : GPolygon) := by
    unfold openPolygon
    cases h : st.cell <;> simp [GState.modifyCell, hi]
  obtain ⟨ha, hfac, hc⟩ := gdsRun_xy u t xys (openPolygon st) i
    (⟨0, 0, [], Repetition.none, []⟩ : GPolygon) hopoly hostore
  rw [hofactor] at hc
  set st2 := gdsRun u t (openPolygon st) (xys.map GdsRecord.XY) with hst2
  have hsplit : gdsRun u t st (b :: xys.map GdsRecord.XY ++
      [GdsRecord.ENDEL]) = gdsStep u t st2 GdsRecord.ENDEL := by
    rw [gdsRun]
    rw [List.cons_append, List.foldl_cons, List.foldl_append]
    rw [hopen]
    rfl
  have hendel : (gdsStep u t st2 GdsRecord.ENDEL).polyStore[i]? =
      some { (⟨0, 0, [], Repetition.none, []⟩ : GPolygon) with points :=
        (([] : List Vec2) ++ (xys.flatten).map (scaled st.factor)).dropLast } := by
    unfold gdsStep
    rw [ha]
    simp only [GState.modifyPoly, List.getElem?_modify, hc]
    simp
  rw [hsplit]
  have hpos : 0 < (xys.flatten).length := List.length_pos.mpr hne
  refine ⟨_, hendel, by simp, ?_⟩
  dsimp only
  rw [List.nil_append, List.length_dropLast, List.length_map]
  omega

/-- Witness for C7: one BOUNDARY with a four-point XY record stores a
three-point polygon. -/
theorem read_gds_polygon_drops_closing_vertex_witness :
    ∃ p : GPolygon,
      (gdsRun 0 0 initGState (GdsRecord.BOUNDARY ::
          [[((0 : ℤ), (0 : ℤ)), (2, 0), (2, 3), (0, 0)]].map GdsRecord.XY ++
          [GdsRecord.ENDEL])).polyStore[initGState.polyStore.length]? = some p ∧
      p.points = (([[((0 : ℤ), (0 : ℤ)), (2, 0), (2, 3), (0, 0)]].flatten).map
        (scaled initGState.factor)).dropLast ∧
      p.points.length + 1 =
        ([[((0 : ℤ), (0 : ℤ)), (2, 0), (2, 3), (0, 0)]].flatten).length :=
  read_gds_polygon_drops_closing_vertex 0 0 initGState GdsRecord.BOUNDARY
    (Or.inl rfl) [[((0 : ℤ), (0 : ℤ)), (2, 0), (2, 3), (0, 0)]] (by decide)

/-! ## OASIS reader (read_oas, library.cpp lines 810-1876)

Record-level model of the modal state machine.  An OasRecord stands for one
decoded record: the optional fields are present exactly when the
corresponding info-byte bit is set, and carry the already-decoded payload
(point lists are the accumulated integer offsets produced by
oasis_read_point_list, repetitions the decoded Repetition).  Name-table
records, properties, trapezoids, circles and the X* records are outside
this model; CBLOCK is modelled separately at byte level. -/

/-- The modal placement cell (modal_placement_cell): the C code keeps a
pointer to the last explicitly named reference and copies either its
stashed reference number or its name. -/
inductive PlacementName where
  | byRefnum (n : Nat) : PlacementName
  | byName (s : String) : PlacementName
deriving DecidableEq

/-- The modal text string (modal_text_string): the last explicit label,
holding either a stashed text reference number or the text itself. -/
inductive TextName where
  | byRefnum (n : Nat) : TextName
  | byString (s : String) : TextName
deriving DecidableEq

/-- The OASIS modal variables of read_oas (library.cpp lines 853-872).
The modal property name and value list (lines 871-872) belong to PROPERTY
records, which are outside this model. -/
structure OasModal where
  absolute_pos : Bool
  layer : Nat
  datatype : Nat
  textlayer : Nat
  texttype : Nat
  placement_pos : Vec2
  text_pos : Vec2
  geom_pos : Vec2
  geom_dim : Vec2
  repetition : Repetition
  text_string : Option TextName
  placement_cell : Option PlacementName
  polygon_points : List Vec2
  path_points : List Vec2
  path_halfwidth : ℚ
  path_extensions : Vec2
  ctrapezoid_type : Nat
  circle_radius : ℚ
deriving DecidableEq

/-- The initializers of the modal variables (library.cpp lines 853-872). -/
def initOasModal : OasModal :=
  { absolute_pos := true, layer := 0, datatype := 0, textlayer := 0,
    texttype := 0, placement_pos := (0, 0), text_pos := (0, 0),
    geom_pos := (0, 0), geom_dim := (0, 0), repetition := Repetition.none,
    text_string := Option.none, placement_cell := Option.none,
    polygon_points := [], path_points := [], path_halfwidth := 0,
    path_extensions := (0, 0), ctrapezoid_type := 0, circle_radius := 0 }

/-- A repetition field of an element record: OASIS repetition type 0 reuses
the modal repetition, any other type replaces it (oasis_read_repetition,
oasis.cpp, not under src/; modelled from the spec). -/
inductive RepInput where
  | reuse : RepInput
  | explicitR (rep : Repetition) : RepInput
deriving DecidableEq

/-- Applying a repetition field: yields the new modal repetition and, when
the bit was set, the repetition copied into the element. -/
def readRepetition (modalRep : Repetition) :
    Option RepInput → Repetition × Option Repetition
  | Option.none => (modalRep, Option.none)
  | some RepInput.reuse => (modalRep, some modalRep)
  | some (RepInput.explicitR rep) => (rep, some rep)

/-- The position-update pattern shared by all record handlers: an absent
coordinate keeps the modal value, a present one replaces it when
absolute_pos is set and is added to it otherwise. -/
def updPos (absolute : Bool) (cur : ℚ) (factor : ℚ) : Option ℤ → ℚ
  | Option.none => cur
  | some v => if absolute then factor * v else cur + factor * v

/-- PLACEMENT / PLACEMENT_TRANSFORM payload.  cellRef is present when info
bit 0x80 is set (inl = reference number, bit 0x40; inr = cell name).
rot90 is the two-bit rotation field (info bits 1-2) used by PLACEMENT;
mag (bit 0x04) and rotationDeg (bit 0x02) are used by PLACEMENT_TRANSFORM.
dx, dy are the bit 0x20 / 0x10 coordinates and repetition bit 0x08. -/
structure PlacementRec where
  cellRef : Option (Nat ⊕ String)
  rot90 : Fin 4
  mag : Option ℚ
  rotationDeg : Option ℚ
  x_reflection : Bool
  dx : Option ℤ
  dy : Option ℤ
  repetition : Option RepInput
deriving DecidableEq

/-- TEXT payload: textRef present when bit 0x40 is set (inl = reference
number, bit 0x20; inr = string); textlayer bit 0x01, texttype bit 0x02,
dx bit 0x10, dy bit 0x08, repetition bit 0x04. -/
structure TextRec where
  textRef : Option (Nat ⊕ String)
  textlayer : Option Nat
  texttype : Option Nat
  dx : Option ℤ
  dy : Option ℤ
  repetition : Option RepInput
deriving DecidableEq

/-- RECTANGLE payload: square bit 0x80, layer bit 0x01, datatype bit 0x02,
width bit 0x40, height bit 0x20, dx bit 0x10, dy bit 0x08, repetition
bit 0x04. -/
structure RectangleRec where
  square : Bool
  layer : Option Nat
  datatype : Option Nat
  width : Option Nat
  height : Option Nat
  dx : Option ℤ
  dy : Option ℤ
  repetition : Option RepInput
deriving DecidableEq

/-- POLYGON payload: pointList bit 0x20 carries the decoded vertex offsets
relative to the record position. -/
structure PolygonRec where
  layer : Option Nat
  datatype : Option Nat
  pointList : Option (List (ℤ × ℤ))
  dx : Option ℤ
  dy : Option ℤ
  repetition : Option RepInput
deriving DecidableEq

/-- One two-bit field of the PATH extension-scheme byte: 0 keeps the modal
extension, 1 selects flush (0), 2 selects the half-width, 3 an explicit
value. -/
inductive ExtSchemeKind where
  | keep : ExtSchemeKind
  | flush : ExtSchemeKind
  | halfwidth : ExtSchemeKind
  | explicitExt (v : ℤ) : ExtSchemeKind
deriving DecidableEq

/-- PATH payload: halfwidth bit 0x40, extension scheme bit 0x80 (first
component bits 0-1 for the start extension x, second bits 2-3 for the end
extension y), pointList bit 0x20, dx bit 0x10, dy bit 0x08, repetition
bit 0x04. -/
structure PathRec where
  layer : Option Nat
  datatype : Option Nat
  halfwidth : Option Nat
  extensions : Option (ExtSchemeKind × ExtSchemeKind)
  pointList : Option (List (ℤ × ℤ))
  dx : Option ℤ
  dy : Option ℤ
  repetition : Option RepInput
deriving DecidableEq

/-- CTRAPEZOID payload: ctraptype bit 0x80, width bit 0x40, height bit
0x20, dx bit 0x10, dy bit 0x08, repetition bit 0x04. -/
structure CtrapezoidRec where
  layer : Option Nat
  datatype : Option Nat
  ctraptype : Option Nat
  width : Option Nat
  height : Option Nat
  dx : Option ℤ
  dy : Option ℤ
  repetition : Option RepInput
deriving DecidableEq

/-- The OASIS records modelled at record level. -/
inductive OasRecord where
  | CELL (name : String) : OasRecord
  | CELL_REF_NUM (refnum : Nat) : OasRecord
  | XYABSOLUTE : OasRecord
  | XYRELATIVE : OasRecord
  | PLACEMENT (r : PlacementRec) : OasRecord
  | PLACEMENT_TRANSFORM (r : PlacementRec) : OasRecord
  | TEXT (r : TextRec) : OasRecord
  | RECTANGLE (r : RectangleRec) : OasRecord
  | POLYGON (r : PolygonRec) : OasRecord
  | PATH (r : PathRec) : OasRecord
  | CTRAPEZOID (r : CtrapezoidRec) : OasRecord
  | END : OasRecord
deriving DecidableEq

/-- A cell built by the OASIS reader.  refnum models the CELL_REF_NUM
reference number stashed in the owner pointer until END resolution. -/
structure OasCell where
  name : Option String
  refnum : Option Nat
  polygons : List GPolygon
  flexpaths : List GFlexPath
  references : List Reference
  labels : List Label
deriving DecidableEq

/-- The reader state: the cells parsed so far (the open cell is the last
one) and the modal variables. -/
structure OasState where
  cells : List OasCell
  modal : OasModal
deriving DecidableEq

def initOasState : OasState := { cells := [], modal := initOasModal }

/-- Mutation through the current-cell pointer: the open cell is the last
allocated one.  With no open cell the C code dereferences a null pointer
(undefined behavior); modelled as a no-op. -/
def modifyLast (f : α → α) : List α → List α
  | [] => []
  | [a] => [f a]
  | a :: rest => a :: modifyLast f rest

/-- Modelled from the spec: Anchor::SW from label.h (not under src/); the
exact numeral is immaterial, anchors are only stored. -/
def anchorSW : Nat := 6

/-- Modelled from the spec: the rectangle constructor from polygon.cpp (not
under src/): the axis-aligned four-vertex polygon between two corners. -/
def rectangleModel (corner1 corner2 : Vec2) (layer datatype : ℤ) :
    GPolygon :=
  { layer := layer, datatype := datatype,
    points := [corner1, (corner2.1, corner1.2), corner2, (corner1.1, corner2.2)],
    repetition := Repetition.none, properties := [] }

/-- The CTRAPEZOID vertex table (library.cpp lines 1498-1613): types 16-23
are triangles built from three copies of the position, every other type
starts from the axis-aligned rectangle; each type then shifts individual
vertices by the width (dim.1) or height (dim.2), where adding a scalar to a
whole vertex (types 17-23) shifts both coordinates. -/
def ctrapezoidPoints (t : Nat) (pos dim : Vec2) : List Vec2 :=
  if 15 < t ∧ t < 24 then
    let v0 := pos
    let v1 := pos
    let v2 := pos
    match t with
    | 16 => [v0, (v1.1 + dim.1, v1.2), (v2.1, v2.2 + dim.1)]
    | 17 => [v0, (v1.1 + dim.1, v1.2 + dim.1), (v2.1, v2.2 + dim.1)]
    | 18 => [v0, (v1.1 + dim.1, v1.2), (v2.1 + dim.1, v2.2 + dim.1)]
    | 19 => [(v0.1 + dim.1, v0.2), (v1.1 + dim.1, v1.2 + dim.1),
             (v2.1, v2.2 + dim.1)]
    | 20 => [v0, (v1.1 + 2 * dim.2, v1.2), (v2.1 + dim.2, v2.2 + dim.2)]
    | 21 => [(v0.1 + dim.2, v0.2), (v1.1 + 2 * dim.2, v1.2 + dim.2),
             (v2.1, v2.2 + dim.2)]
    | 22 => [v0, (v1.1 + dim.1, v1.2 + dim.1), (v2.1, v2.2 + 2 * dim.1)]
    | 23 => [(v0.1 + dim.1, v0.2), (v1.1 + dim.1, v1.2 + 2 * dim.1),
             (v2.1, v2.2 + dim.1)]
    | _ => [v0, v1, v2]
  else
    let v0 := pos
    let v1 := (pos.1 + dim.1, pos.2)
    let v2 := (pos.1 + dim.1, pos.2 + dim.2)
    let v3 := (pos.1, pos.2 + dim.2)
    match t with
    | 0 => [v0, v1, (v2.1 - dim.2, v2.2), v3]
    | 1 => [v0, (v1.1 - dim.2, v1.2), v2, v3]
    | 2 => [v0, v1, v2, (v3.1 + dim.2, v3.2)]
    | 3 => [(v0.1 + dim.2, v0.2), v1, v2, v3]
    | 4 => [v0, v1, (v2.1 - dim.2, v2.2), (v3.1 + dim.2, v3.2)]
    | 5 => [(v0.1 + dim.2, v0.2), (v1.1 - dim.2, v1.2), v2, v3]
    | 6 => [v0, (v1.1 - dim.2, v1.2), v2, (v3.1 + dim.2, v3.2)]
    | 7 => [(v0.1 + dim.2, v0.2), v1, (v2.1 - dim.2, v2.2), v3]
    | 8 => [v0, v1, (v2.1, v2.2 - dim.1), v3]
    | 9 => [v0, v1, v2, (v3.1, v3.2 - dim.1)]
    | 10 => [v0, (v1.1, v1.2 + dim.1), v2, v3]
    | 11 => [(v0.1, v0.2 + dim.1), v1, v2, v3]
    | 12 => [v0, (v1.1 + dim.1, v1.2), (v2.1 - dim.1, v2.2), v3]
    | 13 => [(v0.1 + dim.1, v0.2), v1, v2, (v3.1 - dim.1, v3.2)]
    | 14 => [v0, (v1.1 + dim.1, v1.2), v2, (v3.1 - dim.1, v3.2)]
    | 15 => [(v0.1 + dim.1, v0.2), v1, (v2.1 - dim.1, v2.2), v3]
    | 25 => [v0, v1, (v2.1, pos.2 + dim.1), (v3.1, pos.2 + dim.1)]
    | _ => [v0, v1, v2, v3]

/-- PLACEMENT / PLACEMENT_TRANSFORM handler (library.cpp lines 1088-1161);
transform selects the PLACEMENT_TRANSFORM variant.  References are
allocated cleared; with no explicit cell reference and a null modal
placement cell the C code dereferences NULL (undefined); modelled as
keeping the cleared reference. -/
def oasPlacement (factor : ℚ) (st : OasState) (r : PlacementRec)
    (transform : Bool) : OasState :=
  let base : Reference :=
    ⟨ReferenceType.Cell, Option.none, Option.none, (0, 0), 0, 0, false,
      Repetition.none, []⟩
  let explicitPart : Reference × Option PlacementName :=
    match r.cellRef with
    | some (Sum.inl n) =>
        ({ base with type := ReferenceType.Cell, cell := some n },
         some (PlacementName.byRefnum n))
    | some (Sum.inr s) =>
        ({ base with type := ReferenceType.Name, name := some s },
         some (PlacementName.byName s))
    | Option.none =>
        match st.modal.placement_cell with
        | some (PlacementName.byRefnum n) =>
            ({ base with type := ReferenceType.Cell, cell := some n },
             st.modal.placement_cell)
        | some (PlacementName.byName s) =>
            ({ base with type := ReferenceType.Name, name := some s },
             st.modal.placement_cell)
        | Option.none => (base, Option.none)
  let ref1 := explicitPart.1
  let modalCell := explicitPart.2
  let ref2 :=
    if transform then
      { ref1 with
        magnification := (r.mag).getD 1,
        rotation := match r.rotationDeg with
          | some deg => deg / 180
          | Option.none => ref1.rotation }
    else
      { ref1 with magnification := 1, rotation := (r.rot90.val : ℚ) / 2 }
  let ref3 := { ref2 with x_reflection := r.x_reflection }
  let px := updPos st.modal.absolute_pos st.modal.placement_pos.1 factor r.dx
  let py := updPos st.modal.absolute_pos st.modal.placement_pos.2 factor r.dy
  let repPair := readRepetition st.modal.repetition r.repetition
  let ref4 := { ref3 with
    origin := (px, py),
    repetition := (repPair.2).getD ref3.repetition }
  { cells := modifyLast
      (fun c => { c with references := c.references ++ [ref4] }) st.cells,
    modal := { st.modal with
      placement_pos := (px, py),
      placement_cell := modalCell,
      repetition := repPair.1 } }

/-- TEXT handler (library.cpp lines 1162-1216): labels are allocated
cleared with magnification 1 and anchor SW; with no explicit text and a
null modal text string the C code dereferences NULL (undefined); modelled
as keeping the cleared label. -/
def oasText (factor : ℚ) (st : OasState) (r : TextRec) : OasState :=
  let base : Label :=
    ⟨Option.none, Option.none, 0, 0, (0, 0), anchorSW, 0, 1, false,
      Repetition.none, []⟩
  let explicitPart : Label × Option TextName :=
    match r.textRef with
    | some (Sum.inl n) =>
        ({ base with refnum := some n }, some (TextName.byRefnum n))
    | some (Sum.inr s) =>
        ({ base with text := some s }, some (TextName.byString s))
    | Option.none =>
        match st.modal.text_string with
        | some (TextName.byRefnum n) =>
            ({ base with refnum := some n }, st.modal.text_string)
        | some (TextName.byString s) =>
            ({ base with text := some s }, st.modal.text_string)
        | Option.none => (base, Option.none)
  let lab1 := explicitPart.1
  let modalText := explicitPart.2
  let newTextlayer := (r.textlayer).getD st.modal.textlayer
  let newTexttype := (r.texttype).getD st.modal.texttype
  let tx := updPos st.modal.absolute_pos st.modal.text_pos.1 factor r.dx
  let ty := updPos st.modal.absolute_pos st.modal.text_pos.2 factor r.dy
  let repPair := readRepetition st.modal.repetition r.repetition
  let lab2 := { lab1 with
    layer := (newTextlayer : ℤ),
    texttype := (newTexttype : ℤ),
    origin := (tx, ty),
    repetition := (repPair.2).getD lab1.repetition }
  { cells := modifyLast
      (fun c => { c with labels := c.labels ++ [lab2] }) st.cells,
    modal := { st.modal with
      textlayer := newTextlayer,
      texttype := newTexttype,
      text_pos := (tx, ty),
      text_string := modalText,
      repetition := repPair.1 } }

/-- RECTANGLE handler (library.cpp lines 1217-1259): update the modal
layer, datatype, dimensions and position, then emit the rectangle as a
four-vertex polygon; info bit 0x80 makes it a square (height = width). -/
def oasRectangle (factor : ℚ) (st : OasState) (r : RectangleRec) :
    OasState :=
  let newLayer := (r.layer).getD st.modal.layer
  let newDatatype := (r.datatype).getD st.modal.datatype
  let dimx := match r.width with
    | some w => factor * w
    | Option.none => st.modal.geom_dim.1
  let dimy := match r.height with
    | some h => factor * h
    | Option.none => st.modal.geom_dim.2
  let gx := updPos st.modal.absolute_pos st.modal.geom_pos.1 factor r.dx
  let gy := updPos st.modal.absolute_pos st.modal.geom_pos.2 factor r.dy
  let corner2 : Vec2 := (gx + dimx, gy + (if r.square then dimx else dimy))
  let poly0 := rectangleModel (gx, gy) corner2 (newLayer : ℤ) (newDatatype : ℤ)
  let repPair := readRepetition st.modal.repetition r.repetition
  let poly := { poly0 with repetition := (repPair.2).getD poly0.repetition }
  { cells := modifyLast
      (fun c => { c with polygons := c.polygons ++ [poly] }) st.cells,
    modal := { st.modal with
      layer := newLayer,
      datatype := newDatatype,
      geom_dim := (dimx, dimy),
      geom_pos := (gx, gy),
      repetition := repPair.1 } }

/-- POLYGON handler (library.cpp lines 1260-1305): a new point list (bit
0x20) replaces the modal polygon points; the stored polygon is the implied
origin vertex followed by the modal points, all shifted by the (possibly
updated) modal geometry position. -/
def oasPolygon (factor : ℚ) (st : OasState) (r : PolygonRec) : OasState :=
  let newLayer := (r.layer).getD st.modal.layer
  let newDatatype := (r.datatype).getD st.modal.datatype
  let polyPoints := match r.pointList with
    | some pts => pts.map (scaled factor)
    | Option.none => st.modal.polygon_points
  let gx := updPos st.modal.absolute_pos st.modal.geom_pos.1 factor r.dx
  let gy := updPos st.modal.absolute_pos st.modal.geom_pos.2 factor r.dy
  let shifted := (((0, 0) : Vec2) :: polyPoints).map
    (fun q => (q.1 + gx, q.2 + gy))
  let repPair := readRepetition st.modal.repetition r.repetition
  let poly : GPolygon :=
    { layer := (newLayer : ℤ), datatype := (newDatatype : ℤ),
      points := shifted,
      repetition := (repPair.2).getD Repetition.none, properties := [] }
  { cells := modifyLast
      (fun c => { c with polygons := c.polygons ++ [poly] }) st.cells,
    modal := { st.modal with
      layer := newLayer,
      datatype := newDatatype,
      polygon_points := polyPoints,
      geom_pos := (gx, gy),
      repetition := repPair.1 } }

/-- One two-bit field of the PATH extension scheme (library.cpp lines
1334-1353): 0 keeps the modal value, 1 selects 0, 2 the half-width, 3 an
explicit integer. -/
def extValue (factor halfwidth cur : ℚ) : ExtSchemeKind → ℚ
  | ExtSchemeKind.keep => cur
  | ExtSchemeKind.flush => 0
  | ExtSchemeKind.halfwidth => halfwidth
  | ExtSchemeKind.explicitExt v => factor * v

/-- PATH handler (library.cpp lines 1306-1390): paths are emitted with
gdsii_path and scale_width set; the end type is Flush when both modal
extensions are 0, HalfWidth when both equal the modal half-width, Extended
otherwise (then carrying the extensions); the spine starts at the modal
geometry position and the modal path points are appended relative to it. -/
def oasPath (factor tolerance : ℚ) (st : OasState) (r : PathRec) :
    OasState :=
  let newLayer := (r.layer).getD st.modal.layer
  let newDatatype := (r.datatype).getD st.modal.datatype
  let hw := match r.halfwidth with
    | some w => factor * w
    | Option.none => st.modal.path_halfwidth
  let exts := match r.extensions with
    | some (sx, sy) =>
        (extValue factor hw st.modal.path_extensions.1 sx,
         extValue factor hw st.modal.path_extensions.2 sy)
    | Option.none => st.modal.path_extensions
  let pathPoints := match r.pointList with
    | some pts => pts.map (scaled factor)
    | Option.none => st.modal.path_points
  let gx := updPos st.modal.absolute_pos st.modal.geom_pos.1 factor r.dx
  let gy := updPos st.modal.absolute_pos st.modal.geom_pos.2 factor r.dy
  let base : GFlexPath :=
    { layer := (newLayer : ℤ), datatype := (newDatatype : ℤ), spine := [],
      tolerance := tolerance, half_width_and_offset := [(hw, 0)],
      end_type :=
        if exts.1 = 0 ∧ exts.2 = 0 then EndType.Flush
        else if exts.1 = hw ∧ exts.2 = hw then EndType.HalfWidth
        else EndType.Extended,
      end_extensions :=
        if exts.1 = 0 ∧ exts.2 = 0 then (0, 0)
        else if exts.1 = hw ∧ exts.2 = hw then (0, 0)
        else exts,
      gdsii_path := true, scale_width := true,
      repetition := Repetition.none, properties := [] }
  let withSpine := segmentPath { base with spine := [(gx, gy)] }
    pathPoints true
  let repPair := readRepetition st.modal.repetition r.repetition
  let path := { withSpine with
    repetition := (repPair.2).getD withSpine.repetition }
  { cells := modifyLast
      (fun c => { c with flexpaths := c.flexpaths ++ [path] }) st.cells,
    modal := { st.modal with
      layer := newLayer,
      datatype := newDatatype,
      path_halfwidth := hw,
      path_extensions := exts,
      path_points := pathPoints,
      geom_pos := (gx, gy),
      repetition := repPair.1 } }

/-- CTRAPEZOID handler (library.cpp lines 1459-1618). -/
def oasCtrapezoid (factor : ℚ) (st : OasState) (r : CtrapezoidRec) :
    OasState :=
  let newLayer := (r.layer).getD st.modal.layer
  let newDatatype := (r.datatype).getD st.modal.datatype
  let newType := (r.ctraptype).getD st.modal.ctrapezoid_type
  let dimx := match r.width with
    | some w => factor * w
    | Option.none => st.modal.geom_dim.1
  let dimy := match r.height with
    | some h => factor * h
    | Option.none => st.modal.geom_dim.2
  let gx := updPos st.modal.absolute_pos st.modal.geom_pos.1 factor r.dx
  let gy := updPos st.modal.absolute_pos st.modal.geom_pos.2 factor r.dy
  let repPair := readRepetition st.modal.repetition r.repetition
  let poly : GPolygon :=
    { layer := (newLayer : ℤ), datatype := (newDatatype : ℤ),
      points := ctrapezoidPoints newType (gx, gy) (dimx, dimy),
      repetition := (repPair.2).getD Repetition.none, properties := [] }
  { cells := modifyLast
      (fun c => { c with polygons := c.polygons ++ [poly] }) st.cells,
    modal := { st.modal with
      layer := newLayer,
      datatype := newDatatype,
      ctrapezoid_type := newType,
      geom_dim := (dimx, dimy),
      geom_pos := (gx, gy),
      repetition := repPair.1 } }

/-- One step of the read_oas record loop (library.cpp lines 890-1836).
CELL and CELL_REF_NUM open a new cell and reset exactly the modal
absolute-position flag and the three modal positions (lines 1066-1081);
END is handled by the enclosing loop. -/
def oasStep (factor tolerance : ℚ) (st : OasState) (r : OasRecord) :
    OasState :=
  match r with
  | OasRecord.CELL name =>
      { cells := st.cells ++
          [{ name := some name, refnum := Option.none, polygons := [],
             flexpaths := [], references := [], labels := [] }],
        modal := { st.modal with
          absolute_pos := true,
          placement_pos := (0, 0),
          geom_pos := (0, 0),
          text_pos := (0, 0) } }
  | OasRecord.CELL_REF_NUM n =>
      { cells := st.cells ++
          [{ name := Option.none, refnum := some n, polygons := [],
             flexpaths := [], references := [], labels := [] }],
        modal := { st.modal with
          absolute_pos := true,
          placement_pos := (0, 0),
          geom_pos := (0, 0),
          text_pos := (0, 0) } }
  | OasRecord.XYABSOLUTE =>
      { st with modal := { st.modal with absolute_pos := true } }
  | OasRecord.XYRELATIVE =>
      { st with modal := { st.modal with absolute_pos := false } }
  | OasRecord.PLACEMENT r => oasPlacement factor st r false
  | OasRecord.PLACEMENT_TRANSFORM r => oasPlacement factor st r true
  | OasRecord.TEXT r => oasText factor st r
  | OasRecord.RECTANGLE r => oasRectangle factor st r
  | OasRecord.POLYGON r => oasPolygon factor st r
  | OasRecord.PATH r => oasPath factor tolerance st r
  | OasRecord.CTRAPEZOID r => oasCtrapezoid factor st r
  | OasRecord.END => st

/-- Folding the step function over a record list. -/
def oasRun (factor tolerance : ℚ) (st : OasState) (recs : List OasRecord) :
    OasState :=
  recs.foldl (oasStep factor tolerance) st

/-- The library read_oas returns. -/
structure OasLibrary where
  name : Option String
  unit : ℚ
  precision : ℚ
  cells : List OasCell
deriving DecidableEq

/-- The read_oas record loop: the END record sets the constant library name
"LIB" and returns (library.cpp lines 898-981; the name-table fix-ups
resolve data this model does not carry); running out of records returns
the accumulated library with its name unset. -/
def read_oas_records (factor tolerance unit precision : ℚ) :
    OasState → List OasRecord → OasLibrary
  | st, [] =>
      { name := Option.none, unit := unit, precision := precision,
        cells := st.cells }
  | st, r :: rs =>
      if r = OasRecord.END then
        { name := some "LIB", unit := unit, precision := precision,
          cells := st.cells }
      else read_oas_records factor tolerance unit precision
        (oasStep factor tolerance st r) rs

/-- Outcome of a C call that may run into undefined behavior. -/
inductive CResult (α : Type) where
  | undefinedBehavior : CResult α
  | value : α → CResult α
deriving DecidableEq

/-- read_oas including the fopen failure path (library.cpp lines 813-819).
On open failure the code logs to stderr and then calls fclose(in.file)
while in.file is NULL; fclose requires a valid stream, so the call is
undefined behavior (it crashes on common C libraries) before the empty
library can be returned.  The undefined call is modelled as a distinct
crash outcome. -/
def read_oas_file (factor tolerance unit precision : ℚ) :
    Option (List OasRecord) → CResult OasLibrary
  | Option.none => CResult.undefinedBehavior
  | some rs => CResult.value
      (read_oas_records factor tolerance unit precision initOasState rs)

/-! ## Byte-level CBLOCK skip (read_oas, library.cpp lines 1803-1833) -/

/-- Modelled from the spec: oasis_read_unsigned_integer (oasis.cpp, not
under src/), reading a 7-bit little-endian varint from the head of a byte
list; yields the value and the number of bytes consumed. -/
def oasisReadVarint : List Nat → Option (Nat × Nat)
  | [] => Option.none
  | b :: rest =>
      if b < 128 then some (b, 1)
      else
        match oasisReadVarint rest with
        | some (v, k) => some (b % 128 + 128 * v, k + 1)
        | Option.none => Option.none

/-- oasis_read_unsigned_integer at a file position: the value and the
position just past the varint. -/
def readUIntAt (file : List Nat) (pos : Nat) : Option (Nat × Nat) :=
  match oasisReadVarint (file.drop pos) with
  | some (v, k) => some (v, pos + k)
  | Option.none => Option.none

/-- The CBLOCK handler branch for an unsupported (nonzero) compression
type (library.cpp lines 1803-1808): read the compression-type varint, log
a warning, read the uncompressed-size and compressed-size varints, then
call fseek(in.file, len, SEEK_SET) with len the compressed size — i.e.
reposition the stream to the ABSOLUTE file offset len.  The argument pos
is the offset of the first payload byte after the CBLOCK record byte; the
result is the file position at which the loop reads the next record. -/
def read_oas_cblock_unsupported (file : List Nat) (pos : Nat) :
    Option Nat :=
  match readUIntAt file pos with
  | some (ctype, p1) =>
      if ctype ≠ 0 then
        match readUIntAt file p1 with
        | some (_, p2) =>
            match readUIntAt file p2 with
            | some (csize, _) => some csize
            | Option.none => Option.none
        | Option.none => Option.none
      else Option.none
  | Option.none => Option.none

/-- The next-record position the claim describes: all three varints
consumed, then exactly compressed-size payload bytes skipped from the
current position. -/
def cblock_aligned_position (file : List Nat) (pos : Nat) : Option Nat :=
  match readUIntAt file pos with
  | some (_, p1) =>
      match readUIntAt file p1 with
      | some (_, p2) =>
          match readUIntAt file p2 with
          | some (csize, p3) => some (p3 + csize)
          | Option.none => Option.none
      | Option.none => Option.none
  | Option.none => Option.none

/-- C6: immediately after a CELL or CELL_REF_NUM record the modal
placement, text and geometry positions are (0,0) and the modal
absolute-position flag is true. -/
theorem oas_cell_resets_positions (factor tolerance : ℚ) (st : OasState) :
    (∀ nm : String,
      (oasStep factor tolerance st (OasRecord.CELL nm)).modal.placement_pos =
          ((0 : ℚ), (0 : ℚ)) ∧
      (oasStep factor tolerance st (OasRecord.CELL nm)).modal.text_pos =
          ((0 : ℚ), (0 : ℚ)) ∧
      (oasStep factor tolerance st (OasRecord.CELL nm)).modal.geom_pos =
          ((0 : ℚ), (0 : ℚ)) ∧
      (oasStep factor tolerance st (OasRecord.CELL nm)).modal.absolute_pos =
          true) ∧
    (∀ n : Nat,
      (oasStep factor tolerance st (OasRecord.CELL_REF_NUM n)).modal.placement_pos =
          ((0 : ℚ), (0 : ℚ)) ∧
      (oasStep factor tolerance st (OasRecord.CELL_REF_NUM n)).modal.text_pos =
          ((0 : ℚ), (0 : ℚ)) ∧
      (oasStep factor tolerance st (OasRecord.CELL_REF_NUM n)).modal.geom_pos =
          ((0 : ℚ), (0 : ℚ)) ∧
      (oasStep factor tolerance st (OasRecord.CELL_REF_NUM n)).modal.absolute_pos =
          true) :=
  ⟨fun _ => ⟨rfl, rfl, rfl, rfl⟩, fun _ => ⟨rfl, rfl, rfl, rfl⟩⟩

/-- C5 counterexample: on the concrete stream CELL "A"; RECTANGLE with
layer 5; CELL "B", the modal layer right after the second CELL record is
still 5, not the claimed reset default 0: CELL does not reset the modal
layer (nor the other non-position modal variables). -/
theorem oas_cell_keeps_modal_layer :
    (oasRun 1 0 initOasState
      [OasRecord.CELL "A",
       OasRecord.RECTANGLE ⟨false, some 5, some 3, some 2, some 2, some 0,
         some 0, Option.none⟩,
       OasRecord.CELL "B"]).modal.layer = 5 ∧
    ¬ (oasRun 1 0 initOasState
      [OasRecord.CELL "A",
       OasRecord.RECTANGLE ⟨false, some 5, some 3, some 2, some 2, some 0,
         some 0, Option.none⟩,
       OasRecord.CELL "B"]).modal.layer = 0 := by
  constructor
  · rfl
  · intro h
    exact absurd (rfl.trans h) (by decide)

/-- C5 (amended): a CELL or CELL_REF_NUM record resets exactly the modal
absolute-position flag (to true) and the three modal positions (to (0,0));
every other modal variable — layer, datatype, textlayer, texttype,
geometry dimensions, repetition, text string, placement cell, point lists,
path halfwidth and extensions, ctrapezoid type and circle radius — is
carried over unchanged from the previous cell. -/
theorem oas_cell_resets_only_positions (factor tolerance : ℚ)
    (st : OasState) :
    (∀ nm : String,
      (oasStep factor tolerance st (OasRecord.CELL nm)).modal =
        { st.modal with
          absolute_pos := true,
          placement_pos := (0, 0),
          geom_pos := (0, 0),
          text_pos := (0, 0) }) ∧
    (∀ n : Nat,
      (oasStep factor tolerance st (OasRecord.CELL_REF_NUM n)).modal =
        { st.modal with
          absolute_pos := true,
          placement_pos := (0, 0),
          geom_pos := (0, 0),
          text_pos := (0, 0) }) :=
  ⟨fun _ => rfl, fun _ => rfl⟩

/-- C3 (code bug): for a CBLOCK record whose payload starts at offset 10
with compression type 1, uncompressed size 7 and compressed size 5, the
handler repositions the stream to absolute offset 5 (SEEK_SET with the
compressed size), while consuming the three varints and exactly 5 payload
bytes would leave the stream at offset 18: the stream is left misaligned
on the next record. -/
theorem read_oas_cblock_misaligned :
    read_oas_cblock_unsupported (List.replicate 10 0 ++ [1, 7, 5]) 10 =
        some 5 ∧
    cblock_aligned_position (List.replicate 10 0 ++ [1, 7, 5]) 10 =
        some 18 ∧
    (5 : Nat) ≠ 18 := by decide

/-- C8 (code bug): with an input file that cannot be opened, read_gds
returns the zero-initialized empty library (null name, no cells) as the
claim states, but read_oas reaches undefined behavior — fclose(NULL) —
instead of returning the empty library. -/
theorem open_failure_paths (u t f tol up p : ℚ) :
    read_gds_file u t Option.none = emptyGLibrary ∧
    emptyGLibrary.name = Option.none ∧
    emptyGLibrary.cells = [] ∧
    read_oas_file f tol up p Option.none = CResult.undefinedBehavior :=
  ⟨rfl, rfl, rfl, rfl⟩

end Gdstk
